import Mathlib

/-!
Shallow embedding of the SMC (Apple System Management Controller) userspace
driver shim from vendor/github.com/shirou/gopsutil/host/include/smc.c and
smc.h, together with theorems settling the specification claims about it.

Machine integers are modelled as Nat with explicit reduction modulo a power
of two wherever the C code can overflow or truncate.  Character strings are
modelled as lists of byte values (their ASCII codes).  The privileged IOKit
channel (IOConnectCallStructMethod) is an external collaborator and is
modelled as a function from the connection handle and the input struct to
the kern return code and the output struct, so that mocked channels can be
evaluated on concrete inputs.
-/

/-! ## Constants from smc.c / smc.h -/

/-- SMC specific return codes, kSMC_t in smc.c. -/
def kSMCSuccess : Nat := 0

/-- SMC generic error status, kSMC_t in smc.c. -/
def kSMCError : Nat := 1

/-- SMC key-not-found status, kSMC_t in smc.c. -/
def kSMCKeyNotFound : Nat := 0x84

/-- Function selector for the metadata phase, selector_t in smc.c. -/
def kSMCGetKeyInfo : Nat := 9

/-- Function selector for the read phase, selector_t in smc.c. -/
def kSMCReadKey : Nat := 5

/-- Function selector for the write phase, selector_t in smc.c. -/
def kSMCWriteKey : Nat := 6

/-- IOKit success return code. -/
def kIOReturnSuccess : Nat := 0

/-- IOKit generic error return code. -/
def kIOReturnError : Nat := 0xE00002BC

/-- IOKit bad-argument return code, used by write_smc on metadata mismatch. -/
def kIOReturnBadArgument : Nat := 0xE00002C2

/-- Mach helper used by call_smc; masks the error code field of a kern
return value.  Modelled from the Mach headers where it is the macro
err_get_code, which masks with 0x3fff. -/
def err_get_code (err : Nat) : Nat := err &&& 0x3fff

/-- Number of characters in an SMC key, SMC_KEY_SIZE in smc.c. -/
def SMC_KEY_SIZE : Nat := 4

/-- DATA_TYPE_UINT8, the four bytes of the text ui8 followed by a space. -/
def DATA_TYPE_UINT8 : List Nat := [117, 105, 56, 32]

/-- DATA_TYPE_FLAG, the four bytes of the text flag. -/
def DATA_TYPE_FLAG : List Nat := [102, 108, 97, 103]

/-- DATA_TYPE_FPE2, the four bytes of the text fpe2. -/
def DATA_TYPE_FPE2 : List Nat := [102, 112, 101, 50]

/-- DATA_TYPE_SFDS, the four bytes left-brace f d s. -/
def DATA_TYPE_SFDS : List Nat := [123, 102, 100, 115]

/-- DATA_TYPE_SP78, the four bytes of the text sp78. -/
def DATA_TYPE_SP78 : List Nat := [115, 112, 55, 56]

/-- BATT_PWR key from smc.h, the four bytes of the text BATP. -/
def BATT_PWR : List Nat := [66, 65, 84, 80]

/-- NUM_FANS key from smc.h, the four bytes of the text FNum. -/
def NUM_FANS : List Nat := [70, 78, 117, 109]

/-- ODD_FULL key from smc.h, the four bytes of the text MSDI. -/
def ODD_FULL : List Nat := [77, 83, 68, 73]

/-- CPU_0_DIODE key from smc.h, the four bytes of the text TC0D. -/
def CPU_0_DIODE : List Nat := [84, 67, 48, 68]

/-! ## Type conversion helpers from smc.c -/

/-- from_fpe2 in smc.c: ans starts at zero, then ans += data[0] << 6 and
ans += data[1] << 2, in unsigned int arithmetic. -/
def from_fpe2 (data : List Nat) : Nat :=
  ((data.getD 0 0 <<< 6) + (data.getD 1 0 <<< 2)) % 2 ^ 32

/-- to_fpe2 in smc.c: data[0] = val >> 6 and
data[1] = (val << 2) XOR (data[0] << 8), each truncated to a uint8_t. -/
def to_fpe2 (val : Nat) : List Nat :=
  let d0 := (val >>> 6) % 2 ^ 8
  let d1 := (((val <<< 2) % 2 ^ 32) ^^^ (d0 <<< 8)) % 2 ^ 8
  [d0, d1]

/-- to_uint32_t in smc.c: returns zero unless the key has exactly 4
characters, otherwise runs ans += key[i] << shift for shift 24, 16, 8, 0,
in uint32_t arithmetic (the loop is unrolled here). -/
def to_uint32_t (key : List Nat) : Nat :=
  if key.length ≠ SMC_KEY_SIZE then 0
  else
    ((((0 + (key.getD 0 0 <<< 24)) % 2 ^ 32
        + (key.getD 1 0 <<< 16)) % 2 ^ 32
        + (key.getD 2 0 <<< 8)) % 2 ^ 32
        + (key.getD 3 0 <<< 0)) % 2 ^ 32

/-- to_string in smc.c: unpacks a 32-bit data type code into its four
characters, most significant byte first. -/
def to_string (val : Nat) : List Nat :=
  [(val >>> 24) &&& 0xff, (val >>> 16) &&& 0xff, (val >>> 8) &&& 0xff, val &&& 0xff]

/-- to_fahrenheit in smc.c: (tmp * 1.8) + 32.  The double arithmetic is
modelled exactly over the rationals; at every value reachable from get_tmp
the IEEE double computation agrees with the exact one after rounding. -/
def to_fahrenheit (tmp : ℚ) : ℚ := (tmp * 1.8) + 32

/-- to_kelvin in smc.c: tmp + 273.15, modelled over the rationals. -/
def to_kelvin (tmp : ℚ) : ℚ := tmp + 273.15

/-- Decimal digit expansion used to model sprintf with a %d conversion:
the ASCII codes of the decimal representation of n, most significant digit
first.  The first argument is fuel; it is structurally decreasing and is
always called with enough of it. -/
def udecAux : Nat → Nat → List Nat
  | _, 0 => []
  | 0, _ + 1 => []
  | fuel + 1, n + 1 => udecAux fuel ((n + 1) / 10) ++ [48 + (n + 1) % 10]

/-- ASCII codes of the decimal representation of n, as sprintf %d prints
it (a single 0 for zero, no leading zeros otherwise). -/
def udec (n : Nat) : List Nat :=
  if n = 0 then [48] else udecAux n n

/-- Fan key construction in smc.c: sprintf of the pattern F%d followed by a
fixed two-character suffix (Ac for actual speed, ID for name, Mn for minimum
speed), as the list of character codes.  70 is the code of F. -/
def fan_key (fan_num : Nat) (suffix : List Nat) : List Nat :=
  70 :: udec fan_num ++ suffix

/-! ## Structs from smc.c -/

/-- SMCVersion struct (all fields zeroed and unused on these paths). -/
structure SMCVersion where
  major : Nat
  minor : Nat
  build : Nat
  reserved : Nat
  release : Nat
deriving DecidableEq, Repr

/-- SMCPLimitData struct (all fields zeroed and unused on these paths). -/
structure SMCPLimitData where
  version : Nat
  length : Nat
  cpuPLimit : Nat
  gpuPLimit : Nat
  memPLimit : Nat
deriving DecidableEq, Repr

/-- SMCKeyInfoData struct: the authoritative metadata for a key. -/
structure SMCKeyInfoData where
  dataSize : Nat
  dataType : Nat
  dataAttributes : Nat
deriving DecidableEq, Repr

/-- SMCParamStruct: the request and response struct exchanged with the
AppleSMC driver.  bytes is the 32-byte payload buffer. -/
structure SMCParamStruct where
  key : Nat
  vers : SMCVersion
  pLimitData : SMCPLimitData
  keyInfo : SMCKeyInfoData
  result : Nat
  status : Nat
  data8 : Nat
  data32 : Nat
  bytes : List Nat
deriving DecidableEq, Repr

/-- smc_return_t: data returned from (and, for writes, declared to) the
transaction engine. -/
structure smc_return_t where
  data : List Nat
  dataType : Nat
  dataSize : Nat
  kSMC : Nat
deriving DecidableEq, Repr

/-- A zeroed SMCVersion, as produced by memset. -/
def zeroSMCVersion : SMCVersion := ⟨0, 0, 0, 0, 0⟩

/-- A zeroed SMCPLimitData, as produced by memset. -/
def zeroSMCPLimitData : SMCPLimitData := ⟨0, 0, 0, 0, 0⟩

/-- A zeroed SMCKeyInfoData, as produced by memset. -/
def zeroSMCKeyInfoData : SMCKeyInfoData := ⟨0, 0, 0⟩

/-- A zeroed SMCParamStruct, as produced by memset. -/
def zeroParamStruct : SMCParamStruct :=
  ⟨0, zeroSMCVersion, zeroSMCPLimitData, zeroSMCKeyInfoData, 0, 0, 0, 0,
    List.replicate 32 0⟩

/-- A zeroed smc_return_t, as produced by memset. -/
def zero_smc_return : smc_return_t := ⟨List.replicate 32 0, 0, 0, 0⟩

/-! ## Channel model and global state -/

/-- The privileged channel, IOConnectCallStructMethod: a function of the
connection handle and the input struct, giving the kern return code and the
output struct.  This is the external collaborator boundary; mocked channels
instantiate it. -/
abbrev RawChannel := Nat → SMCParamStruct → Nat × SMCParamStruct

/-- The global mutable state of smc.c: the io_connect_t conn handle. -/
structure SMCGlobals where
  conn : Nat
deriving DecidableEq, Repr

/-- The kern return code after the error mapping in call_smc: a
non-success code is passed through err_get_code. -/
def errAdj (result : Nat) : Nat :=
  if result ≠ kIOReturnSuccess then err_get_code result else result

/-- call_smc in smc.c: invokes the channel on the current connection and
applies the error mapping.  The global state is threaded explicitly; the
body never assigns conn. -/
def call_smc (ch : RawChannel) (g : SMCGlobals) (input : SMCParamStruct) :
    SMCGlobals × Nat × SMCParamStruct :=
  (g, errAdj (ch g.conn input).1, (ch g.conn input).2)

/-- The phase-1 request built by read_smc and write_smc: a zeroed struct
with the encoded key and the get-key-info selector. -/
def phase1Req (key : List Nat) : SMCParamStruct :=
  { zeroParamStruct with key := to_uint32_t key, data8 := kSMCGetKeyInfo }

/-- The phase-2 request built by read_smc: the phase-1 request with the
selector switched to read-key and keyInfo.dataSize set to the size from
phase 1. -/
def phase2ReadReq (key : List Nat) (sz : Nat) : SMCParamStruct :=
  { phase1Req key with
      data8 := kSMCReadKey,
      keyInfo := { zeroSMCKeyInfoData with dataSize := sz } }

/-- The phase-2 request built by write_smc: the phase-1 request with the
selector switched to write-key, keyInfo.dataSize set to the size from
phase 1 and the payload copied into bytes. -/
def phase2WriteReq (key : List Nat) (sz : Nat) (payload : List Nat) :
    SMCParamStruct :=
  { phase1Req key with
      data8 := kSMCWriteKey,
      keyInfo := { zeroSMCKeyInfoData with dataSize := sz },
      bytes := payload }

/-- Observable outcome of one transaction: the resulting global state, the
kern return code, the filled smc_return_t, and the list of requests issued
to the channel in order (instrumentation recording what the C code sends). -/
structure TxOutcome where
  g : SMCGlobals
  result : Nat
  ret : smc_return_t
  calls : List SMCParamStruct
deriving DecidableEq, Repr

/-- read_smc in smc.c: phase 1 fetches the key metadata; on success phase 2
reads the payload.  Early return keeps the zeroed smc_return_t fields
(only kSMC is set). -/
def read_smc (ch : RawChannel) (g : SMCGlobals) (key : List Nat) : TxOutcome :=
  let c1 := call_smc ch g (phase1Req key)
  let ret1 : smc_return_t := { zero_smc_return with kSMC := c1.2.2.result }
  if c1.2.1 ≠ kIOReturnSuccess ∨ c1.2.2.result ≠ kSMCSuccess then
    ⟨c1.1, c1.2.1, ret1, [phase1Req key]⟩
  else
    let ret2 : smc_return_t :=
      { ret1 with
          dataSize := c1.2.2.keyInfo.dataSize,
          dataType := c1.2.2.keyInfo.dataType }
    let req2 := phase2ReadReq key c1.2.2.keyInfo.dataSize
    let c2 := call_smc ch c1.1 req2
    let ret3 : smc_return_t := { ret2 with kSMC := c2.2.2.result }
    if c2.2.1 ≠ kIOReturnSuccess ∨ c2.2.2.result ≠ kSMCSuccess then
      ⟨c2.1, c2.2.1, ret3, [phase1Req key, req2]⟩
    else
      ⟨c2.1, c2.2.1, { ret3 with data := c2.2.2.bytes }, [phase1Req key, req2]⟩

/-- write_smc in smc.c: phase 1 fetches the key metadata; the caller
declared size and type in result_smc must match it exactly, otherwise the
bad-argument code is returned and no write request is issued; on a match
phase 2 writes the declared payload. -/
def write_smc (ch : RawChannel) (g : SMCGlobals) (key : List Nat)
    (declared : smc_return_t) : TxOutcome :=
  let c1 := call_smc ch g (phase1Req key)
  let ret1 : smc_return_t := { declared with kSMC := c1.2.2.result }
  if c1.2.1 ≠ kIOReturnSuccess ∨ c1.2.2.result ≠ kSMCSuccess then
    ⟨c1.1, c1.2.1, ret1, [phase1Req key]⟩
  else if declared.dataSize ≠ c1.2.2.keyInfo.dataSize ∨
      declared.dataType ≠ c1.2.2.keyInfo.dataType then
    ⟨c1.1, kIOReturnBadArgument, ret1, [phase1Req key]⟩
  else
    let req2 := phase2WriteReq key c1.2.2.keyInfo.dataSize declared.data
    let c2 := call_smc ch c1.1 req2
    ⟨c2.1, c2.2.1, { ret1 with kSMC := c2.2.2.result }, [phase1Req key, req2]⟩

/-! ## Sensor and actuator facade from smc.c -/

/-- tmp_unit_t from smc.h. -/
inductive tmp_unit_t where
  | CELSIUS
  | FAHRENHEIT
  | KELVIN
deriving DecidableEq, Repr

/-- Observable outcome of one facade operation: the resulting global state,
the returned value, and the requests issued to the channel. -/
structure FacadeOut (α : Type) where
  g : SMCGlobals
  val : α
  calls : List SMCParamStruct
deriving Repr

/-- get_tmp in smc.c: reads the key and requires kern success with metadata
size 2 and type sp78, returning 0.0 otherwise; the temperature is the first
payload byte in Celsius, converted per the requested unit. -/
def get_tmp (ch : RawChannel) (g : SMCGlobals) (key : List Nat)
    (unit : tmp_unit_t) : FacadeOut ℚ :=
  let o := read_smc ch g key
  if ¬(o.result = kIOReturnSuccess ∧ o.ret.dataSize = 2 ∧
      o.ret.dataType = to_uint32_t DATA_TYPE_SP78) then
    ⟨o.g, 0.0, o.calls⟩
  else
    let tmp : ℚ := (o.ret.data.getD 0 0 : ℚ)
    match unit with
    | tmp_unit_t.CELSIUS => ⟨o.g, tmp, o.calls⟩
    | tmp_unit_t.FAHRENHEIT => ⟨o.g, to_fahrenheit tmp, o.calls⟩
    | tmp_unit_t.KELVIN => ⟨o.g, to_kelvin tmp, o.calls⟩

/-- is_battery_powered in smc.c: reads BATT_PWR and requires kern success
with metadata size 1 and type flag, returning false otherwise; the value is
the first payload byte viewed as a boolean. -/
def is_battery_powered (ch : RawChannel) (g : SMCGlobals) : FacadeOut Bool :=
  let o := read_smc ch g BATT_PWR
  if ¬(o.result = kIOReturnSuccess ∧ o.ret.dataSize = 1 ∧
      o.ret.dataType = to_uint32_t DATA_TYPE_FLAG) then
    ⟨o.g, false, o.calls⟩
  else
    ⟨o.g, o.ret.data.getD 0 0 != 0, o.calls⟩

/-- is_optical_disk_drive_full in smc.c: same shape as is_battery_powered
over the ODD_FULL key. -/
def is_optical_disk_drive_full (ch : RawChannel) (g : SMCGlobals) :
    FacadeOut Bool :=
  let o := read_smc ch g ODD_FULL
  if ¬(o.result = kIOReturnSuccess ∧ o.ret.dataSize = 1 ∧
      o.ret.dataType = to_uint32_t DATA_TYPE_FLAG) then
    ⟨o.g, false, o.calls⟩
  else
    ⟨o.g, o.ret.data.getD 0 0 != 0, o.calls⟩

/-- get_fan_name in smc.c: reads the F%dID key and requires kern success
with metadata size 16 and the custom struct type; on success the bytes at
positions 4 to 15 of the payload are copied into the name buffer, stopping
at the first space byte (code 32).  The Bool is the C return value and the
list is the sequence of bytes written into the name buffer. -/
def get_fan_name (ch : RawChannel) (g : SMCGlobals) (fan_num : Nat) :
    FacadeOut (Bool × List Nat) :=
  let o := read_smc ch g (fan_key fan_num [73, 68])
  if ¬(o.result = kIOReturnSuccess ∧ o.ret.dataSize = 16 ∧
      o.ret.dataType = to_uint32_t DATA_TYPE_SFDS) then
    ⟨o.g, (false, []), o.calls⟩
  else
    ⟨o.g, (true, ((o.ret.data.drop 4).take 12).takeWhile (fun b => b != 32)),
      o.calls⟩

/-- get_num_fans in smc.c: reads NUM_FANS and requires kern success with
metadata size 1 and type uint8, returning -1 otherwise; the count is the
first payload byte. -/
def get_num_fans (ch : RawChannel) (g : SMCGlobals) : FacadeOut Int :=
  let o := read_smc ch g NUM_FANS
  if ¬(o.result = kIOReturnSuccess ∧ o.ret.dataSize = 1 ∧
      o.ret.dataType = to_uint32_t DATA_TYPE_UINT8) then
    ⟨o.g, -1, o.calls⟩
  else
    ⟨o.g, (o.ret.data.getD 0 0 : Int), o.calls⟩

/-- get_fan_rpm in smc.c: reads the F%dAc key and requires kern success
with metadata size 2 and type fpe2, returning 0 otherwise; the speed is the
fpe2 decoding of the payload. -/
def get_fan_rpm (ch : RawChannel) (g : SMCGlobals) (fan_num : Nat) :
    FacadeOut Nat :=
  let o := read_smc ch g (fan_key fan_num [65, 99])
  if ¬(o.result = kIOReturnSuccess ∧ o.ret.dataSize = 2 ∧
      o.ret.dataType = to_uint32_t DATA_TYPE_FPE2) then
    ⟨o.g, 0, o.calls⟩
  else
    ⟨o.g, from_fpe2 o.ret.data, o.calls⟩

/-- set_fan_min_rpm in smc.c: declares size 2 and type fpe2 with the fpe2
encoding of rpm as payload, writes it to the F%dMn key, and reports whether
both the kern return and the SMC status are success.  The auth flag is
accepted and ignored, as in the source. -/
def set_fan_min_rpm (ch : RawChannel) (g : SMCGlobals) (fan_num rpm : Nat)
    (auth : Bool) : FacadeOut Bool :=
  let declared : smc_return_t :=
    { data := to_fpe2 rpm ++ List.replicate 30 0,
      dataType := to_uint32_t DATA_TYPE_FPE2,
      dataSize := 2,
      kSMC := 0 }
  let o := write_smc ch g (fan_key fan_num [77, 110]) declared
  ⟨o.g, o.result == kIOReturnSuccess && o.ret.kSMC == kSMCSuccess, o.calls⟩

/-! ## Mocked channels used to witness and refute the claims -/

/-- A channel that fails every call with the generic IOKit error. -/
def alwaysFailChannel : RawChannel := fun _ _ => (kIOReturnError, zeroParamStruct)

/-- A channel whose phase-1 response carries the key-not-found SMC status. -/
def keyNotFoundChannel : RawChannel := fun _ _ =>
  (kIOReturnSuccess, { zeroParamStruct with result := kSMCKeyNotFound })

/-- A channel answering every metadata request with size 2 and type flag
and succeeding on every other request. -/
def mockWriteMetaChannel : RawChannel := fun _ input =>
  if input.data8 = kSMCGetKeyInfo then
    (kIOReturnSuccess,
      { zeroParamStruct with
          result := kSMCSuccess,
          keyInfo := { zeroSMCKeyInfoData with
            dataSize := 2, dataType := to_uint32_t DATA_TYPE_FLAG } })
  else
    (kIOReturnSuccess, { zeroParamStruct with result := kSMCSuccess })

/-- A channel serving fan metadata size 2 and type fpe2 and a read payload
holding the fpe2 encoding of 1200. -/
def mockFan1200Channel : RawChannel := fun _ input =>
  if input.data8 = kSMCGetKeyInfo then
    (kIOReturnSuccess,
      { zeroParamStruct with
          result := kSMCSuccess,
          keyInfo := { zeroSMCKeyInfoData with
            dataSize := 2, dataType := to_uint32_t DATA_TYPE_FPE2 } })
  else if input.data8 = kSMCReadKey then
    (kIOReturnSuccess,
      { zeroParamStruct with
          result := kSMCSuccess,
          bytes := to_fpe2 1200 ++ List.replicate 30 0 })
  else (kIOReturnError, zeroParamStruct)

/-- A channel serving temperature metadata size 2 and type sp78 and a read
payload whose first byte is 25. -/
def mockTmp25Channel : RawChannel := fun _ input =>
  if input.data8 = kSMCGetKeyInfo then
    (kIOReturnSuccess,
      { zeroParamStruct with
          result := kSMCSuccess,
          keyInfo := { zeroSMCKeyInfoData with
            dataSize := 2, dataType := to_uint32_t DATA_TYPE_SP78 } })
  else if input.data8 = kSMCReadKey then
    (kIOReturnSuccess,
      { zeroParamStruct with
          result := kSMCSuccess,
          bytes := 25 :: List.replicate 31 0 })
  else (kIOReturnError, zeroParamStruct)

/-- A channel serving fan-name metadata size 16 and the custom struct type
and a read payload whose name region starts with F a n space. -/
def mockNameChannel : RawChannel := fun _ input =>
  if input.data8 = kSMCGetKeyInfo then
    (kIOReturnSuccess,
      { zeroParamStruct with
          result := kSMCSuccess,
          keyInfo := { zeroSMCKeyInfoData with
            dataSize := 16, dataType := to_uint32_t DATA_TYPE_SFDS } })
  else if input.data8 = kSMCReadKey then
    (kIOReturnSuccess,
      { zeroParamStruct with
          result := kSMCSuccess,
          bytes := [0, 0, 0, 0, 70, 97, 110, 32] ++ List.replicate 24 0 })
  else (kIOReturnError, zeroParamStruct)

/-- A channel whose phase 1 succeeds with metadata matching the expected
contract of get_num_fans (or of get_tmp for other keys), while phase 2
returns kern success but a non-success SMC status. -/
def phase2FailChannel : RawChannel := fun _ input =>
  if input.data8 = kSMCGetKeyInfo then
    if input.key = to_uint32_t NUM_FANS then
      (kIOReturnSuccess,
        { zeroParamStruct with
            result := kSMCSuccess,
            keyInfo := { zeroSMCKeyInfoData with
              dataSize := 1, dataType := to_uint32_t DATA_TYPE_UINT8 } })
    else
      (kIOReturnSuccess,
        { zeroParamStruct with
            result := kSMCSuccess,
            keyInfo := { zeroSMCKeyInfoData with
              dataSize := 2, dataType := to_uint32_t DATA_TYPE_SP78 } })
  else
    (kIOReturnSuccess, { zeroParamStruct with result := kSMCError })

/-- A caller declaration of size 1 and type flag, as in the spec test for
the write-time type mismatch. -/
def declaredFlag1 : smc_return_t :=
  { zero_smc_return with dataSize := 1, dataType := to_uint32_t DATA_TYPE_FLAG }

/-! ## Helper lemmas about the transaction engine -/

/-- The phase-1 request carries the encoded key. -/
theorem phase1Req_key (key : List Nat) : (phase1Req key).key = to_uint32_t key := rfl

/-- The phase-2 read request carries the encoded key. -/
theorem phase2ReadReq_key (key : List Nat) (sz : Nat) :
    (phase2ReadReq key sz).key = to_uint32_t key := rfl

/-- The phase-1 request carries the get-key-info selector. -/
theorem phase1Req_data8 (key : List Nat) :
    (phase1Req key).data8 = kSMCGetKeyInfo := rfl

/-- The phase-2 read request carries the read-key selector. -/
theorem phase2ReadReq_data8 (key : List Nat) (sz : Nat) :
    (phase2ReadReq key sz).data8 = kSMCReadKey := rfl

/-- The phase-2 write request carries the write-key selector. -/
theorem phase2WriteReq_data8 (key : List Nat) (sz : Nat) (payload : List Nat) :
    (phase2WriteReq key sz payload).data8 = kSMCWriteKey := rfl

/-- read_smc when phase 1 fails, either at the IO level or with a
non-success SMC status: the transaction stops after the single metadata
request. -/
theorem read_smc_early (ch : RawChannel) (g : SMCGlobals) (key : List Nat)
    (hc : errAdj (ch g.conn (phase1Req key)).1 ≠ kIOReturnSuccess ∨
      (ch g.conn (phase1Req key)).2.result ≠ kSMCSuccess) :
    read_smc ch g key =
      ⟨g, errAdj (ch g.conn (phase1Req key)).1,
        { zero_smc_return with kSMC := (ch g.conn (phase1Req key)).2.result },
        [phase1Req key]⟩ := by
  simp only [read_smc, call_smc]
  rw [if_pos hc]

/-- Fields of the read_smc outcome once phase 1 has succeeded: the result
is the adjusted kern return of the phase-2 call, the returned metadata is
the authoritative metadata of phase 1, and both requests were issued.  The
fields listed here agree across the success and failure branches of
phase 2. -/
theorem read_smc_phase1_ok_fields (ch : RawChannel) (g : SMCGlobals) (key : List Nat)
    (hr : errAdj (ch g.conn (phase1Req key)).1 = kIOReturnSuccess)
    (hs : (ch g.conn (phase1Req key)).2.result = kSMCSuccess) :
    (read_smc ch g key).result =
      errAdj (ch g.conn
        (phase2ReadReq key (ch g.conn (phase1Req key)).2.keyInfo.dataSize)).1 ∧
    (read_smc ch g key).ret.dataSize = (ch g.conn (phase1Req key)).2.keyInfo.dataSize ∧
    (read_smc ch g key).ret.dataType = (ch g.conn (phase1Req key)).2.keyInfo.dataType ∧
    (read_smc ch g key).calls =
      [phase1Req key,
        phase2ReadReq key (ch g.conn (phase1Req key)).2.keyInfo.dataSize] := by
  simp only [read_smc, call_smc]
  rw [if_neg (by simp [hr, hs])]
  split <;> simp

/-- read_smc when both phases fully succeed: the outcome carries the
phase-2 payload and the phase-1 metadata. -/
theorem read_smc_success_eq (ch : RawChannel) (g : SMCGlobals) (key : List Nat)
    (hr : errAdj (ch g.conn (phase1Req key)).1 = kIOReturnSuccess)
    (hs : (ch g.conn (phase1Req key)).2.result = kSMCSuccess)
    (hr2 : errAdj (ch g.conn
      (phase2ReadReq key (ch g.conn (phase1Req key)).2.keyInfo.dataSize)).1 = kIOReturnSuccess)
    (hs2 : (ch g.conn
      (phase2ReadReq key (ch g.conn (phase1Req key)).2.keyInfo.dataSize)).2.result = kSMCSuccess) :
    read_smc ch g key =
      ⟨g, kIOReturnSuccess,
        ⟨(ch g.conn (phase2ReadReq key (ch g.conn (phase1Req key)).2.keyInfo.dataSize)).2.bytes,
          (ch g.conn (phase1Req key)).2.keyInfo.dataType,
          (ch g.conn (phase1Req key)).2.keyInfo.dataSize,
          kSMCSuccess⟩,
        [phase1Req key,
          phase2ReadReq key (ch g.conn (phase1Req key)).2.keyInfo.dataSize]⟩ := by
  simp only [read_smc, call_smc]
  rw [if_neg (by simp [hr, hs])]
  rw [if_neg (by simp [hr2, hs2])]
  simp [hr2, hs2, zero_smc_return]

/-- write_smc when phase 1 succeeds but the caller-declared metadata does
not match the authoritative metadata: the bad-argument code is returned
and only the metadata request was issued. -/
theorem write_smc_mismatch_eq (ch : RawChannel) (g : SMCGlobals) (key : List Nat)
    (declared : smc_return_t)
    (hr : errAdj (ch g.conn (phase1Req key)).1 = kIOReturnSuccess)
    (hs : (ch g.conn (phase1Req key)).2.result = kSMCSuccess)
    (hm : declared.dataSize ≠ (ch g.conn (phase1Req key)).2.keyInfo.dataSize ∨
      declared.dataType ≠ (ch g.conn (phase1Req key)).2.keyInfo.dataType) :
    write_smc ch g key declared =
      ⟨g, kIOReturnBadArgument,
        { declared with kSMC := (ch g.conn (phase1Req key)).2.result },
        [phase1Req key]⟩ := by
  simp only [write_smc, call_smc]
  rw [if_neg (by simp [hr, hs])]
  rw [if_pos hm]

/-- Every request issued by read_smc carries the encoded key. -/
theorem read_smc_calls_key (ch : RawChannel) (g : SMCGlobals) (key : List Nat) :
    ∀ p ∈ (read_smc ch g key).calls, p.key = to_uint32_t key := by
  intro p hp
  simp only [read_smc, call_smc] at hp
  split at hp
  · simp only [List.mem_singleton] at hp
    subst hp; rfl
  · split at hp <;>
    · simp only [List.mem_cons, List.mem_singleton, List.not_mem_nil, or_false] at hp
      rcases hp with hp | hp <;> subst hp <;> rfl

/-- udecAux never returns the empty list when given positive fuel and a
positive number. -/
theorem udecAux_ne_nil (fuel n : Nat) (hf : fuel ≠ 0) (hn : n ≠ 0) :
    udecAux fuel n ≠ [] := by
  match fuel, n with
  | f + 1, m + 1 => simp [udecAux]

/-- Numbers below ten print as a single character. -/
theorem udec_length_lt_ten (n : Nat) (h : n < 10) : (udec n).length = 1 := by
  match n with
  | 0 => rfl
  | m + 1 =>
    unfold udec udecAux
    rw [if_neg (Nat.succ_ne_zero m), Nat.div_eq_of_lt h]
    cases m <;> simp [udecAux]

/-- Numbers of ten or more print as at least two characters. -/
theorem udec_length_ge_ten (n : Nat) (h : 10 ≤ n) : 2 ≤ (udec n).length := by
  match n, h with
  | m + 1, h =>
    unfold udec udecAux
    rw [if_neg (Nat.succ_ne_zero m)]
    have h10 : (m + 1) / 10 ≠ 0 := by
      have : 1 ≤ (m + 1) / 10 := (Nat.le_div_iff_mul_le (by norm_num)).2 (by omega)
      omega
    have hne := udecAux_ne_nil m ((m + 1) / 10) (by omega) h10
    have hpos : 0 < (udecAux m ((m + 1) / 10)).length := List.length_pos.2 hne
    simp only [List.length_append, List.length_cons, List.length_nil]
    omega

/-- Error outcomes detected by the read-style facades: an IO-level failure
of the phase-1 call (nonzero adjusted kern return), a non-success phase-1
SMC status, authoritative metadata differing from the expected size and
type, or an IO-level failure of the phase-2 call.  A phase-2 non-success
SMC status with kern success is deliberately absent: the facade checks do
not detect it. -/
@[reducible] def DetectedError (ch : RawChannel) (g : SMCGlobals) (key : List Nat)
    (sz ty : Nat) : Prop :=
  errAdj (ch g.conn (phase1Req key)).1 ≠ kIOReturnSuccess
  ∨ (ch g.conn (phase1Req key)).2.result ≠ kSMCSuccess
  ∨ (ch g.conn (phase1Req key)).2.keyInfo.dataSize ≠ sz
  ∨ (ch g.conn (phase1Req key)).2.keyInfo.dataType ≠ ty
  ∨ errAdj (ch g.conn
      (phase2ReadReq key (ch g.conn (phase1Req key)).2.keyInfo.dataSize)).1 ≠ kIOReturnSuccess

/-- On any detected error outcome the guard common to the read-style
facades fails, because the kern result is nonzero, or the returned
metadata is still zeroed, or it differs from the expected contract. -/
theorem read_smc_guard_fails (ch : RawChannel) (g : SMCGlobals) (key : List Nat)
    {sz ty : Nat} (hsz : sz ≠ 0) (h : DetectedError ch g key sz ty) :
    ¬((read_smc ch g key).result = kIOReturnSuccess ∧
      (read_smc ch g key).ret.dataSize = sz ∧
      (read_smc ch g key).ret.dataType = ty) := by
  intro hg
  by_cases hc : errAdj (ch g.conn (phase1Req key)).1 ≠ kIOReturnSuccess ∨
      (ch g.conn (phase1Req key)).2.result ≠ kSMCSuccess
  · rw [read_smc_early ch g key hc] at hg
    rcases hc with hc | hc
    · exact hc hg.1
    · exact hsz hg.2.1.symm
  · push_neg at hc
    obtain ⟨hr, hs⟩ := hc
    obtain ⟨hres, hsize, htype, _⟩ := read_smc_phase1_ok_fields ch g key hr hs
    rcases h with h | h | h | h | h
    · exact h hr
    · exact h hs
    · exact h (hsize ▸ hg.2.1)
    · exact h (htype ▸ hg.2.2)
    · exact h (hres ▸ hg.1)

/-- Every request issued by write_smc carries the encoded key. -/
theorem write_smc_calls_key (ch : RawChannel) (g : SMCGlobals) (key : List Nat)
    (declared : smc_return_t) :
    ∀ p ∈ (write_smc ch g key declared).calls, p.key = to_uint32_t key := by
  intro p hp
  simp only [write_smc, call_smc] at hp
  split at hp
  · simp only [List.mem_singleton] at hp
    subst hp; rfl
  · split at hp
    · simp only [List.mem_singleton] at hp
      subst hp; rfl
    · simp only [List.mem_cons, List.mem_singleton, List.not_mem_nil, or_false] at hp
      rcases hp with hp | hp <;> subst hp <;> rfl

/-- get_fan_rpm issues exactly the requests of its underlying read. -/
theorem get_fan_rpm_calls (ch : RawChannel) (g : SMCGlobals) (fan_num : Nat) :
    (get_fan_rpm ch g fan_num).calls =
      (read_smc ch g (fan_key fan_num [65, 99])).calls := by
  simp only [get_fan_rpm]
  split <;> rfl

/-- set_fan_min_rpm issues exactly the requests of its underlying write. -/
theorem set_fan_min_rpm_calls (ch : RawChannel) (g : SMCGlobals) (fan_num rpm : Nat)
    (auth : Bool) :
    (set_fan_min_rpm ch g fan_num rpm auth).calls =
      (write_smc ch g (fan_key fan_num [77, 110])
        { data := to_fpe2 rpm ++ List.replicate 30 0,
          dataType := to_uint32_t DATA_TYPE_FPE2,
          dataSize := 2,
          kSMC := 0 }).calls := rfl

/-! ## Claim theorems -/

/-- Claim C1 (code bug): the claim asserts round-trip fidelity,
from_fpe2 applied to to_fpe2 of v equals v for all v in [0, 16383], but
the code refutes it at v = 1: to_fpe2 encodes 1 as the bytes [0, 4] and
from_fpe2 decodes those bytes to 16, because from_fpe2 shifts the second
byte left by 2 where inverting to_fpe2 (the fpe2 wire format, value times
4 stored big-endian) requires shifting it right by 2.  This theorem
evaluates the code at the failing input. -/
theorem fpe2_roundtrip_fails_at_one :
    to_fpe2 1 = [0, 4] ∧ from_fpe2 (to_fpe2 1) = 16 ∧ from_fpe2 (to_fpe2 1) ≠ 1 := by
  decide

/-- Claim C2: if the phase-1 metadata fetch of write_smc succeeds but the
authoritative size and type pair differs from the caller-declared pair,
write_smc returns the bad-argument code (the TypeMismatch error of the
spec) and issues no phase-2 write request to the channel. -/
theorem write_smc_type_mismatch (ch : RawChannel) (g : SMCGlobals) (key : List Nat)
    (declared : smc_return_t)
    (h1 : (ch g.conn (phase1Req key)).1 = kIOReturnSuccess)
    (h2 : (ch g.conn (phase1Req key)).2.result = kSMCSuccess)
    (h3 : declared.dataSize ≠ (ch g.conn (phase1Req key)).2.keyInfo.dataSize ∨
      declared.dataType ≠ (ch g.conn (phase1Req key)).2.keyInfo.dataType) :
    (write_smc ch g key declared).result = kIOReturnBadArgument ∧
    (write_smc ch g key declared).calls = [phase1Req key] ∧
    ∀ p ∈ (write_smc ch g key declared).calls, p.data8 ≠ kSMCWriteKey := by
  have hr : errAdj (ch g.conn (phase1Req key)).1 = kIOReturnSuccess := by
    simp [errAdj, h1]
  rw [write_smc_mismatch_eq ch g key declared hr h2 h3]
  refine ⟨rfl, rfl, ?_⟩
  intro p hp
  simp only [List.mem_singleton] at hp
  subst hp
  rw [phase1Req_data8]
  decide

/-- Witness for C2 at the spec test: the mocked channel reports metadata
size 2 and type flag while the caller declares size 1 and type flag. -/
theorem write_smc_type_mismatch_witness :
    (write_smc mockWriteMetaChannel ⟨0⟩ BATT_PWR declaredFlag1).result
        = kIOReturnBadArgument ∧
    (write_smc mockWriteMetaChannel ⟨0⟩ BATT_PWR declaredFlag1).calls
        = [phase1Req BATT_PWR] :=
  ⟨(write_smc_type_mismatch mockWriteMetaChannel ⟨0⟩ BATT_PWR declaredFlag1
      (by decide) (by decide) (by decide)).1,
   (write_smc_type_mismatch mockWriteMetaChannel ⟨0⟩ BATT_PWR declaredFlag1
      (by decide) (by decide) (by decide)).2.1⟩

/-- Claim C3: if the phase-1 metadata response carries a non-success SMC
status, read_smc stops after the single metadata request: the outcome
carries that non-success status (the key-not-found code 0x84 is reported
as KeyNotFound by callers, every other non-success status as a channel
error) and no phase-2 read request is issued. -/
theorem read_smc_phase1_nonsuccess (ch : RawChannel) (g : SMCGlobals) (key : List Nat)
    (h : (ch g.conn (phase1Req key)).2.result ≠ kSMCSuccess) :
    (read_smc ch g key).ret.kSMC = (ch g.conn (phase1Req key)).2.result ∧
    (read_smc ch g key).ret.kSMC ≠ kSMCSuccess ∧
    (read_smc ch g key).calls = [phase1Req key] ∧
    ∀ p ∈ (read_smc ch g key).calls,
      p.data8 ≠ kSMCReadKey ∧ p.data8 ≠ kSMCWriteKey := by
  rw [read_smc_early ch g key (Or.inr h)]
  refine ⟨rfl, h, rfl, ?_⟩
  intro p hp
  simp only [List.mem_singleton] at hp
  subst hp
  rw [phase1Req_data8]
  decide

/-- Witness for C3: a channel whose phase-1 response carries the
key-not-found status makes read_smc stop after the metadata request with
that status in the outcome. -/
theorem read_smc_phase1_nonsuccess_witness :
    (read_smc keyNotFoundChannel ⟨0⟩ ODD_FULL).ret.kSMC = kSMCKeyNotFound ∧
    (read_smc keyNotFoundChannel ⟨0⟩ ODD_FULL).calls = [phase1Req ODD_FULL] := by
  have h := read_smc_phase1_nonsuccess keyNotFoundChannel ⟨0⟩ ODD_FULL (by decide)
  exact ⟨by rw [h.1]; decide, h.2.2.1⟩

/-- Claim C4: to_uint32_t returns zero, its in-band signal of an invalid
key length, for every key whose length is not exactly 4 characters, and
packs the four characters big-endian (first character in the most
significant byte) for every 4-character key. -/
theorem to_uint32_t_spec (key : List Nat) (hb : ∀ c ∈ key, c < 256) :
    (key.length ≠ 4 → to_uint32_t key = 0) ∧
    (key.length = 4 →
      to_uint32_t key =
        key.getD 0 0 * 2 ^ 24 + key.getD 1 0 * 2 ^ 16 +
          key.getD 2 0 * 2 ^ 8 + key.getD 3 0) := by
  constructor
  · intro h
    simp [to_uint32_t, SMC_KEY_SIZE, h]
  · intro h
    match key, h with
    | [a, b, c, d], _ =>
      have ha : a < 256 := hb a (by simp)
      have hb2 : b < 256 := hb b (by simp)
      have hc : c < 256 := hb c (by simp)
      have hd : d < 256 := hb d (by simp)
      unfold to_uint32_t
      rw [if_neg (by simp [SMC_KEY_SIZE])]
      simp only [List.getD, List.getElem?_cons_zero, List.getElem?_cons_succ,
        Option.getD_some, Nat.shiftLeft_eq]
      norm_num
      omega

/-- Witness for C4: a 3-character key encodes to zero and the 4-character
key F0Ac packs big-endian. -/
theorem to_uint32_t_spec_witness :
    to_uint32_t [70, 48, 65] = 0 ∧
    to_uint32_t [70, 48, 65, 99] =
      70 * 2 ^ 24 + 48 * 2 ^ 16 + 65 * 2 ^ 8 + 99 := by
  constructor
  · exact (to_uint32_t_spec [70, 48, 65] (by decide)).1 (by decide)
  · have h := (to_uint32_t_spec [70, 48, 65, 99] (by decide)).2 (by decide)
    simpa using h

/-- Claim C5 (code bug): the claim asserts that with mocked metadata
size 2 and type fpe2 and a read payload holding the fpe2 encoding of 1200
(the bytes [18, 192], which to_fpe2 produces for 1200), get_fan_rpm of
fan 0 returns 1200; the code returns 1920 because from_fpe2 does not
invert to_fpe2.  This theorem evaluates the code at the failing input. -/
theorem get_fan_rpm_fpe2_1200_eval :
    to_fpe2 1200 = [18, 192] ∧
    (get_fan_rpm mockFan1200Channel ⟨0⟩ 0).val = 1920 ∧
    (get_fan_rpm mockFan1200Channel ⟨0⟩ 0).val ≠ 1200 := by
  decide

/-- Claim C6 (counterexample): the claim says every error outcome makes
get_num_fans return -1, but a phase-2 response with kern success and a
non-success SMC status is an error outcome that slips past the facade
checks: get_num_fans then returns 0, the first byte of the zeroed payload,
instead of -1. -/
theorem get_num_fans_phase2_error_returns_zero :
    (phase2FailChannel 0 (phase2ReadReq NUM_FANS 1)).2.result = kSMCError ∧
    (get_num_fans phase2FailChannel ⟨0⟩).val = 0 ∧
    (get_num_fans phase2FailChannel ⟨0⟩).val ≠ -1 ∧
    (get_tmp phase2FailChannel ⟨0⟩ CPU_0_DIODE tmp_unit_t.FAHRENHEIT).val = 32 := by
  refine ⟨by decide, by decide, by decide, ?_⟩
  simp only [get_tmp]
  rw [show read_smc phase2FailChannel ⟨0⟩ CPU_0_DIODE =
      ⟨⟨0⟩, 0, ⟨List.replicate 32 0, to_uint32_t DATA_TYPE_SP78, 2, kSMCError⟩,
        [phase1Req CPU_0_DIODE, phase2ReadReq CPU_0_DIODE 2]⟩ from by decide]
  norm_num [to_fahrenheit, kIOReturnSuccess]

/-- Claim C6 (amended): on every error outcome the facade checks detect,
namely an IO-level failure of either call, a non-success phase-1 SMC
status, or metadata differing from the expected size and type contract,
the read-style facades return their documented sentinels: get_tmp returns
0.0 for every unit, is_battery_powered returns false, get_num_fans
returns -1, and get_fan_rpm returns 0.  A phase-2 non-success SMC status
under kern success is excluded: the facades do not detect it. -/
theorem facades_sentinel_on_detected_error (ch : RawChannel) (g : SMCGlobals) :
    (∀ key unit, DetectedError ch g key 2 (to_uint32_t DATA_TYPE_SP78) →
      (get_tmp ch g key unit).val = 0) ∧
    (DetectedError ch g BATT_PWR 1 (to_uint32_t DATA_TYPE_FLAG) →
      (is_battery_powered ch g).val = false) ∧
    (DetectedError ch g NUM_FANS 1 (to_uint32_t DATA_TYPE_UINT8) →
      (get_num_fans ch g).val = -1) ∧
    (∀ fan_num, DetectedError ch g (fan_key fan_num [65, 99]) 2
        (to_uint32_t DATA_TYPE_FPE2) →
      (get_fan_rpm ch g fan_num).val = 0) := by
  refine ⟨?_, ?_, ?_, ?_⟩
  · intro key unit h
    have hg := read_smc_guard_fails ch g key (by decide) h
    simp only [get_tmp]
    rw [if_pos hg]
    norm_num
  · intro h
    have hg := read_smc_guard_fails ch g BATT_PWR (by decide) h
    simp only [is_battery_powered]
    rw [if_pos hg]
  · intro h
    have hg := read_smc_guard_fails ch g NUM_FANS (by decide) h
    simp only [get_num_fans]
    rw [if_pos hg]
  · intro fan_num h
    have hg := read_smc_guard_fails ch g (fan_key fan_num [65, 99]) (by decide) h
    simp only [get_fan_rpm]
    rw [if_pos hg]

/-- Witness for the amended C6 on a channel that fails every call at the
IO level: all four facades return their sentinels. -/
theorem facades_sentinel_witness :
    (get_tmp alwaysFailChannel ⟨0⟩ CPU_0_DIODE tmp_unit_t.KELVIN).val = 0 ∧
    (is_battery_powered alwaysFailChannel ⟨0⟩).val = false ∧
    (get_num_fans alwaysFailChannel ⟨0⟩).val = -1 ∧
    (get_fan_rpm alwaysFailChannel ⟨0⟩ 3).val = 0 := by
  have h := facades_sentinel_on_detected_error alwaysFailChannel ⟨0⟩
  exact ⟨h.1 CPU_0_DIODE tmp_unit_t.KELVIN (Or.inl (by decide)),
    h.2.1 (Or.inl (by decide)),
    h.2.2.1 (Or.inl (by decide)),
    h.2.2.2 3 (Or.inl (by decide))⟩

/-- Claim C7: when the read behind get_fan_name fully succeeds with
metadata size 16 and the custom struct type, the name written out is
exactly the payload bytes at positions 4 to 15, truncated at the first
space byte (code 32). -/
theorem get_fan_name_spec (ch : RawChannel) (g : SMCGlobals) (fan_num : Nat)
    (h1 : (ch g.conn (phase1Req (fan_key fan_num [73, 68]))).1 = kIOReturnSuccess)
    (h2 : (ch g.conn (phase1Req (fan_key fan_num [73, 68]))).2.result = kSMCSuccess)
    (h3 : (ch g.conn (phase1Req (fan_key fan_num [73, 68]))).2.keyInfo.dataSize = 16)
    (h4 : (ch g.conn (phase1Req (fan_key fan_num [73, 68]))).2.keyInfo.dataType
        = to_uint32_t DATA_TYPE_SFDS)
    (h5 : (ch g.conn (phase2ReadReq (fan_key fan_num [73, 68]) 16)).1 = kIOReturnSuccess)
    (h6 : (ch g.conn (phase2ReadReq (fan_key fan_num [73, 68]) 16)).2.result = kSMCSuccess) :
    (get_fan_name ch g fan_num).val =
      (true,
        (((ch g.conn (phase2ReadReq (fan_key fan_num [73, 68]) 16)).2.bytes.drop 4).take
            12).takeWhile (fun b => b != 32)) := by
  have hr : errAdj (ch g.conn (phase1Req (fan_key fan_num [73, 68]))).1
      = kIOReturnSuccess := by simp [errAdj, h1]
  have hr2 : errAdj (ch g.conn (phase2ReadReq (fan_key fan_num [73, 68])
      ((ch g.conn (phase1Req (fan_key fan_num [73, 68]))).2.keyInfo.dataSize))).1
      = kIOReturnSuccess := by rw [h3]; simp [errAdj, h5]
  have hs2 : (ch g.conn (phase2ReadReq (fan_key fan_num [73, 68])
      ((ch g.conn (phase1Req (fan_key fan_num [73, 68]))).2.keyInfo.dataSize))).2.result
      = kSMCSuccess := by rw [h3]; exact h6
  simp only [get_fan_name]
  rw [read_smc_success_eq ch g (fan_key fan_num [73, 68]) hr h2 hr2 hs2]
  rw [if_neg (by simp [h3, h4])]
  rw [h3]

/-- Witness for C7 at the spec test: a payload whose name region holds
F a n space followed by zeros yields the name bytes of Fan. -/
theorem get_fan_name_spec_witness :
    (get_fan_name mockNameChannel ⟨0⟩ 0).val = (true, [70, 97, 110]) := by
  have h := get_fan_name_spec mockNameChannel ⟨0⟩ 0 (by decide) (by decide)
    (by decide) (by decide) (by decide) (by decide)
  rw [h]
  decide

/-- Claim C8: the temperature unit conversions are the pure total
functions Fahrenheit equals Celsius times 1.8 plus 32 and Kelvin equals
Celsius plus 273.15, applied to the Celsius value taken from the first
payload byte; in particular get_tmp with payload starting 25, metadata
size 2 and type sp78, and unit Fahrenheit returns 77. -/
theorem temperature_conversion_spec :
    (∀ c : ℚ, to_fahrenheit c = c * 1.8 + 32) ∧
    (∀ c : ℚ, to_kelvin c = c + 273.15) ∧
    (get_tmp mockTmp25Channel ⟨0⟩ CPU_0_DIODE tmp_unit_t.FAHRENHEIT).val = 77 := by
  refine ⟨fun c => rfl, fun c => rfl, ?_⟩
  simp only [get_tmp]
  rw [show read_smc mockTmp25Channel ⟨0⟩ CPU_0_DIODE =
      ⟨⟨0⟩, 0, ⟨25 :: List.replicate 31 0, to_uint32_t DATA_TYPE_SP78, 2, 0⟩,
        [phase1Req CPU_0_DIODE, phase2ReadReq CPU_0_DIODE 2]⟩ from by decide]
  norm_num [to_fahrenheit, kIOReturnSuccess]

/-- Claim C9: read_smc and write_smc leave the global connection handle
unchanged on every outcome; no transaction closes, reopens, or reassigns
the connection. -/
theorem transactions_preserve_conn (ch : RawChannel) (g : SMCGlobals)
    (key : List Nat) (declared : smc_return_t) :
    (read_smc ch g key).g = g ∧ (write_smc ch g key declared).g = g := by
  constructor
  · simp only [read_smc, call_smc]
    split
    · rfl
    · split <;> rfl
  · simp only [write_smc, call_smc]
    split
    · rfl
    · split <;> rfl

/-- Claim C10: for every fan index of ten or more, the sprintf fan-key
template yields a string longer than 4 characters, so to_uint32_t returns
0 and every request the fan operations issue carries the 32-bit key 0
rather than any fan key; the 4-character-key invariant holds exactly for
fan indices 0 through 9. -/
theorem fan_key_four_char_only_below_ten (n : Nat) :
    (10 ≤ n →
      4 < (fan_key n [65, 99]).length ∧
      to_uint32_t (fan_key n [65, 99]) = 0 ∧
      to_uint32_t (fan_key n [73, 68]) = 0 ∧
      to_uint32_t (fan_key n [77, 110]) = 0 ∧
      (∀ ch : RawChannel, ∀ g : SMCGlobals,
        ∀ p ∈ (get_fan_rpm ch g n).calls, p.key = 0) ∧
      (∀ ch : RawChannel, ∀ g : SMCGlobals, ∀ rpm : Nat, ∀ auth : Bool,
        ∀ p ∈ (set_fan_min_rpm ch g n rpm auth).calls, p.key = 0)) ∧
    (n < 10 →
      (fan_key n [65, 99]).length = 4 ∧
      (fan_key n [73, 68]).length = 4 ∧
      (fan_key n [77, 110]).length = 4) := by
  have hlen : ∀ suffix : List Nat, (fan_key n suffix).length
      = 1 + (udec n).length + suffix.length := by
    intro suffix
    simp [fan_key]
    omega
  constructor
  · intro h
    have h2 := udec_length_ge_ten n h
    have hgt : ∀ suffix : List Nat, suffix.length = 2 →
        4 < (fan_key n suffix).length := by
      intro suffix hs
      rw [hlen suffix, hs]
      omega
    have henc : ∀ suffix : List Nat, suffix.length = 2 →
        to_uint32_t (fan_key n suffix) = 0 := by
      intro suffix hs
      unfold to_uint32_t
      rw [if_pos]
      have := hgt suffix hs
      simp [SMC_KEY_SIZE]
      omega
    refine ⟨hgt [65, 99] rfl, henc [65, 99] rfl, henc [73, 68] rfl,
      henc [77, 110] rfl, ?_, ?_⟩
    · intro ch g p hp
      rw [get_fan_rpm_calls] at hp
      rw [read_smc_calls_key ch g (fan_key n [65, 99]) p hp, henc [65, 99] rfl]
    · intro ch g rpm auth p hp
      rw [set_fan_min_rpm_calls] at hp
      rw [write_smc_calls_key ch g (fan_key n [77, 110]) _ p hp, henc [77, 110] rfl]
  · intro h
    have h1 := udec_length_lt_ten n h
    refine ⟨?_, ?_, ?_⟩ <;> · rw [hlen]; rw [h1]; rfl

/-- Witness for C10 at fan indices 10 and 9. -/
theorem fan_key_four_char_only_below_ten_witness :
    (4 < (fan_key 10 [65, 99]).length ∧ to_uint32_t (fan_key 10 [65, 99]) = 0) ∧
    (fan_key 9 [65, 99]).length = 4 := by
  have h10 := (fan_key_four_char_only_below_ten 10).1 (by decide)
  have h9 := (fan_key_four_char_only_below_ten 9).2 (by decide)
  exact ⟨⟨h10.1, h10.2.1⟩, h9.1⟩

